import Mathlib

/-!
# Verification of the sei-Firewall gateway layer

Shallow embedding of the resilient upstream call wrapper
(`makeRobustAPICall`), the pagination aggregators (`getTokenTransfers`,
`getNFTTransfers`) from `sei-mcp-server/src/core/services/tokens.ts`,
the `/messages` session routing from
`sei-mcp-server/src/server/http-server.ts`, and the pending-call
correlator of `bot/src/mcpClient.js` (`es.onmessage`).

Conventions of the embedding:
* the external world is a function from attempt number (resp. page
  offset) to the outcome of that HTTP attempt;
* JavaScript exceptions become explicit `JsError` values; a `throw`
  inside the `try` block of `makeRobustAPICall` flows into its own
  `catch` clause, exactly as in the source (the tail
  `return makeRobustAPICall(...)` calls are *not* awaited inside the
  `try`, so their rejections do not re-enter the catch);
* wall-clock effects (`sleep`) are recorded as a list of requested
  millisecond durations; recursion is driven by explicit fuel because
  the source function need not terminate on all worlds;
* JSON parsing of the 429 body plus the `Unblock was scheduled at`
  regex and the date subtraction are abstracted into the field
  `Body.unblockWaitMs` (the computed `waitTime` in ms, `none` when the
  body is unparseable or carries no machine-readable unblock time).
-/

/-- Substring test used to model JavaScript `String.prototype.includes`:
does the haystack start with the needle? -/
def charsStartWith : List Char → List Char → Bool
  | [], _ => true
  | _ :: _, [] => false
  | a :: as, b :: bs => a == b && charsStartWith as bs

/-- Does the needle occur anywhere in the haystack? -/
def charsContain (needle : List Char) : List Char → Bool
  | [] => charsStartWith needle []
  | c :: t => charsStartWith needle (c :: t) || charsContain needle t

/-- `hasSubstr hay needle` models `hay.includes(needle)`. -/
def hasSubstr (hay needle : String) : Bool :=
  charsContain needle.toList hay.toList

/-- A JavaScript error value as inspected by the catch clause of
`makeRobustAPICall`: optional `code` (set on Node network errors),
`name`, and `message`. Errors created by `new Error(msg)` have
`code = none` and `name = "Error"`. -/
structure JsError where
  code : Option String
  name : String
  message : String
  deriving DecidableEq, Repr

/-- The retry classifier from the catch clause of `makeRobustAPICall`
(tokens.ts): Node error codes, `AbortError`, or known message
substrings. -/
def isNetworkError (e : JsError) : Bool :=
  e.code == some "ECONNRESET" ||
  e.code == some "ETIMEDOUT" ||
  e.code == some "ENOTFOUND" ||
  e.name == "AbortError" ||
  hasSubstr e.message "socket connection was closed" ||
  hasSubstr e.message "network error" ||
  hasSubstr e.message "fetch failed"

/-- The text of an HTTP response body, together with the result of the
429 rate-limit analysis the source performs on it (`JSON.parse`, the
`Unblock was scheduled at` check, the ISO-timestamp regex and the
subtraction from the current time): `unblockWaitMs` is the computed
wait in milliseconds, `none` when parsing fails at any stage. -/
structure Body where
  text : String
  unblockWaitMs : Option Int
  deriving DecidableEq, Repr

/-- The JSON value returned by a successful upstream call, as the
aggregators inspect it: `items = some l` models an `items` field that
is an array `l`, `none` models a missing or non-array `items` field.
Individual transfer records are opaque and represented by `Nat` ids. -/
structure ApiData where
  items : Option (List Nat)
  deriving DecidableEq, Repr

/-- Outcome of one HTTP attempt, as seen by `makeRobustAPICall`:
either a response arrived (with status, body text and eventual JSON
value) or the awaited promise chain rejected with a `JsError`
(covers `fetch` itself as well as `response.text()`/`response.json()`
rejections — all of them land in the same catch clause). -/
inductive FetchResult where
  | http (status : Nat) (body : Body) (data : ApiData)
  | reject (e : JsError)

/-- Result of running `makeRobustAPICall`: success or terminal error,
each carrying the number of HTTP attempts performed and the list of
sleeps (ms) requested along the way; `outOfFuel` means the function was
still retrying when the fuel ran out. -/
inductive CallOutcome where
  | ok (data : ApiData) (attempts : Nat) (sleeps : List Nat)
  | err (e : JsError) (attempts : Nat) (sleeps : List Nat)
  | outOfFuel (attempts : Nat) (sleeps : List Nat)
  deriving DecidableEq, Repr

/-- Account for the one attempt performed at the current recursion
level and the sleep requested before the tail call. -/
def withStep (ms : Nat) : CallOutcome → CallOutcome
  | .ok d a s => .ok d (a + 1) (ms :: s)
  | .err e a s => .err e (a + 1) (ms :: s)
  | .outOfFuel a s => .outOfFuel (a + 1) (ms :: s)

/-- Number of HTTP attempts an outcome records. -/
def attemptsOf : CallOutcome → Nat
  | .ok _ a _ => a
  | .err _ a _ => a
  | .outOfFuel a _ => a

/-- Message of the error thrown when the rate-limit budget is
exhausted: `Rate limited after ${maxAttempts} attempts. ${errorBody}`. -/
def rateLimitedMsg (maxAttempts : Nat) (bodyText : String) : String :=
  "Rate limited after " ++ toString maxAttempts ++ " attempts. " ++ bodyText

/-- Message of the error thrown on a non-retryable HTTP status:
`HTTP ${status}: ${errorBody}`. -/
def httpErrMsg (status : Nat) (bodyText : String) : String :=
  "HTTP " ++ toString status ++ ": " ++ bodyText

/-- Shallow embedding of `makeRobustAPICall(url, attempt, maxAttempts)`
from tokens.ts. `world n` is the outcome of the `n`-th attempt's HTTP
round trip. Control flow mirrors the source:
* 429 with a parsed unblock wait in `(0, 300000)` ms: sleep the wait
  plus a 1 s buffer and retry with `attempt+1` — with no check of the
  attempt budget;
* other 429: if `attempt < maxAttempts` sleep 60 s and retry, else
  throw the rate-limited error (which the catch clause re-examines and
  rethrows, since the budget is spent);
* non-ok status: retry with exponential backoff (base 1000 ms, cap
  10 s) when the status is 5xx/408/429 and budget remains, else throw
  `HTTP <status>: <body>` into the catch clause;
* catch clause: retry with exponential backoff (base 2000 ms, cap
  15 s) when `isNetworkError` matches and budget remains, else the
  error is terminal. -/
def makeRobustAPICall (world : Nat → FetchResult)
    (attempt maxAttempts fuel : Nat) : CallOutcome :=
  match fuel with
  | 0 => .outOfFuel 0 []
  | fuel' + 1 =>
    let runCatch : JsError → CallOutcome := fun e =>
      if isNetworkError e = true ∧ attempt < maxAttempts then
        withStep (min (2000 * 2 ^ attempt) 15000)
          (makeRobustAPICall world (attempt + 1) maxAttempts fuel')
      else .err e 1 []
    match world attempt with
    | .reject e => runCatch e
    | .http status body data =>
      if status = 429 then
        let fallback429 : Unit → CallOutcome := fun _ =>
          if attempt < maxAttempts then
            withStep 60000
              (makeRobustAPICall world (attempt + 1) maxAttempts fuel')
          else
            runCatch ⟨none, "Error", rateLimitedMsg maxAttempts body.text⟩
        match body.unblockWaitMs with
        | some w =>
          if 0 < w ∧ w < 300000 then
            withStep (w.toNat + 1000)
              (makeRobustAPICall world (attempt + 1) maxAttempts fuel')
          else fallback429 ()
        | none => fallback429 ()
      else if ¬(200 ≤ status ∧ status ≤ 299) then
        if (500 ≤ status ∨ status = 408 ∨ status = 429) ∧ attempt < maxAttempts then
          withStep (min (1000 * 2 ^ attempt) 10000)
            (makeRobustAPICall world (attempt + 1) maxAttempts fuel')
        else runCatch ⟨none, "Error", httpErrMsg status body.text⟩
      else .ok data 1 []

example :
    makeRobustAPICall (fun _ => .http 429 ⟨"busy", some 60000⟩ ⟨none⟩) 1 1 2 =
      .outOfFuel 2 [61000, 61000] := by decide

example :
    makeRobustAPICall (fun _ => .http 400 ⟨"fetch failed", none⟩ ⟨none⟩) 1 3 3 =
      .err ⟨none, "Error", "HTTP 400: fetch failed"⟩ 3 [4000, 8000] := by decide

example :
    makeRobustAPICall (fun _ => .http 404 ⟨"not found", none⟩ ⟨none⟩) 1 3 3 =
      .err ⟨none, "Error", "HTTP 404: not found"⟩ 1 [] := by decide

example :
    makeRobustAPICall (fun _ => .http 429 ⟨"slow down", none⟩ ⟨none⟩) 1 2 2 =
      .err ⟨none, "Error", "Rate limited after 2 attempts. slow down"⟩ 2 [60000] := by
  decide

example :
    makeRobustAPICall (fun _ => .http 200 ⟨"", none⟩ ⟨some [1, 2]⟩) 1 3 3 =
      .ok ⟨some [1, 2]⟩ 1 [] := by decide

/-!
## Pagination aggregators (`getTokenTransfers`, `getNFTTransfers`)

Both functions run the same `while (requestCount < maxRequests)` loop;
the only differences are the upstream URL (erc20 vs erc721 plus an
optional `token_id` query parameter) and the constant `maxRequests`
(1 for the fungible-token variant, 2 for the NFT variant). The URL
construction (chain id, contract address, limit/offset, date filters,
token id) is abstracted into the `upstream` function from page offset
to the outcome of `makeRobustAPICall` on that page's URL; the 2000 ms
courtesy sleep between requests has no effect on the returned value
and is not recorded. The `retrieved_at` timestamp and the constant
`metadata` object of the results are omitted (pure clock/constants).
-/

/-- How the paginating while-loop exits: normally (carrying the
accumulated items and the final `requestCount`) or by an exception
thrown from `makeRobustAPICall`, which the surrounding `try/catch`
turns into a failure result. -/
inductive LoopExit where
  | done (acc : List Nat) (requestCount : Nat)
  | threw (e : JsError)
  deriving DecidableEq, Repr

/-- The paginating while-loop shared by `getTokenTransfers` and
`getNFTTransfers`. `fuel = maxRequests - requestCount` counts the
remaining iterations the `requestCount < maxRequests` guard allows;
a page with a non-empty `items` array is appended, a full page
(`items.length` not below `limit`) advances `offset` by `limit` and
increments `requestCount`, anything else breaks out of the loop. -/
def aggLoop (upstream : Nat → Except JsError ApiData) (limit : Nat) :
    Nat → List Nat → Nat → Nat → LoopExit
  | 0, acc, _, requestCount => .done acc requestCount
  | fuel + 1, acc, offset, requestCount =>
    match upstream offset with
    | .error e => .threw e
    | .ok data =>
      match data.items with
      | some (i :: is) =>
        if (i :: is).length < limit then .done (acc ++ i :: is) requestCount
        else aggLoop upstream limit fuel (acc ++ i :: is) (offset + limit)
          (requestCount + 1)
      | some [] => .done acc requestCount
      | none => .done acc requestCount

/-- Model of JavaScript `String.prototype.toLowerCase` restricted to
the code points the source ever feeds it (hex addresses): lower-case
each character. -/
def jsToLower (s : String) : String :=
  ⟨s.toList.map Char.toLower⟩

/-- Model of JavaScript `String.prototype.startsWith`. -/
def jsStartsWith (s pre : String) : Bool :=
  charsStartWith pre.toList s.toList

/-- Address normalisation performed at the top of both aggregators:
lower-case, and prepend `0x` unless already present. -/
def cleanAddressOf (tokenAddress : String) : String :=
  if jsStartsWith (jsToLower tokenAddress) "0x" then jsToLower tokenAddress
  else "0x" ++ jsToLower tokenAddress

/-- Success object returned by `getTokenTransfers`. -/
structure TokenTransfersOk where
  success : Bool
  token_address : String
  chain_id : String
  from_date : Option String
  to_date : Option String
  total_transfers : Nat
  requests_made : Nat
  transfers : List Nat
  deriving DecidableEq, Repr

/-- Failure object returned by the catch clause of
`getTokenTransfers`: note it carries the raw (uncleaned) address and
no `transfers` field at all. -/
structure TokenTransfersErr where
  success : Bool
  error : String
  token_address : String
  chain_id : String
  from_date : Option String
  to_date : Option String
  deriving DecidableEq, Repr

/-- Value returned by `getTokenTransfers`. -/
inductive TokenTransfersResult where
  | ok (r : TokenTransfersOk)
  | fail (r : TokenTransfersErr)
  deriving DecidableEq, Repr

/-- Shallow embedding of `getTokenTransfers(tokenAddress, fromDate,
toDate)` from tokens.ts: `limit = 50`, `maxRequests = 1`. -/
def getTokenTransfersEmb (upstream : Nat → Except JsError ApiData)
    (tokenAddress : String) (fromDate toDate : Option String) :
    TokenTransfersResult :=
  match aggLoop upstream 50 1 [] 0 0 with
  | .done acc rc =>
    .ok ⟨true, cleanAddressOf tokenAddress, "pacific-1", fromDate, toDate,
      acc.length, rc, acc⟩
  | .threw e =>
    .fail ⟨false, e.message, tokenAddress, "pacific-1", fromDate, toDate⟩

/-- Success object returned by `getNFTTransfers`. -/
structure NFTTransfersOk where
  success : Bool
  token_address : String
  token_id : Option String
  chain_id : String
  from_date : Option String
  to_date : Option String
  total_transfers : Nat
  requests_made : Nat
  transfers : List Nat
  deriving DecidableEq, Repr

/-- Failure object returned by the catch clause of `getNFTTransfers`. -/
structure NFTTransfersErr where
  success : Bool
  error : String
  token_address : String
  token_id : Option String
  chain_id : String
  from_date : Option String
  to_date : Option String
  deriving DecidableEq, Repr

/-- Value returned by `getNFTTransfers`. -/
inductive NFTTransfersResult where
  | ok (r : NFTTransfersOk)
  | fail (r : NFTTransfersErr)
  deriving DecidableEq, Repr

/-- Shallow embedding of `getNFTTransfers(tokenAddress, tokenId,
fromDate, toDate)` from tokens.ts: `limit = 50`, `maxRequests = 2`;
the `tokenId` only changes the upstream URL (abstracted into
`upstream`) and is echoed in the result. -/
def getNFTTransfersEmb (upstream : Nat → Except JsError ApiData)
    (tokenAddress : String) (tokenId fromDate toDate : Option String) :
    NFTTransfersResult :=
  match aggLoop upstream 50 2 [] 0 0 with
  | .done acc rc =>
    .ok ⟨true, cleanAddressOf tokenAddress, tokenId, "pacific-1", fromDate,
      toDate, acc.length, rc, acc⟩
  | .threw e =>
    .fail ⟨false, e.message, tokenAddress, tokenId, "pacific-1", fromDate,
      toDate⟩

/-- Common core of an aggregation result (success: totals, request
count and items; failure: the error message), used to compare the
fungible-token and NFT variants. -/
def tokenCore : TokenTransfersResult → Except String (Nat × Nat × List Nat)
  | .ok r => .ok (r.total_transfers, r.requests_made, r.transfers)
  | .fail r => .error r.error

/-- The same projection for the NFT variant. -/
def nftCore : NFTTransfersResult → Except String (Nat × Nat × List Nat)
  | .ok r => .ok (r.total_transfers, r.requests_made, r.transfers)
  | .fail r => .error r.error

/-!
## `/messages` routing (http-server.ts)

The session registry is `connections : Map<string, SSEServerTransport>`;
we model its key set as a list of session ids in insertion order
(`Array.from(connections.keys())` order). The handler returns an HTTP
status, the session the message was routed to (if any), and the
registry afterwards.
-/

/-- Shallow embedding of `app.post("/messages")`: default to the sole
registered session when no `sessionId` query parameter is given and
exactly one connection exists; 503 when the MCP server is not yet
initialized; 400 when no session id could be determined; 404 when the
id is not registered; otherwise the message is handed to that
session's transport. The registry is returned unchanged in all
branches. -/
def handleMessagesPost (serverInit : Bool) (connections : List String)
    (sessionIdQ : Option String) : Nat × Option String × List String :=
  let sessionId : Option String :=
    match sessionIdQ with
    | some s => some s
    | none => if connections.length = 1 then connections.head? else none
  if serverInit = false then (503, none, connections)
  else
    match sessionId with
    | none => (400, none, connections)
    | some sid =>
      if connections.contains sid then (200, some sid, connections)
      else (404, none, connections)

/-!
## Pending-call correlator (bot/src/mcpClient.js)

`pending` is `Map<string, {resolve, reject, timer}>`; we model it as an
association list from call id to the timer handle (a `Nat`), with at
most one entry per key (the `Map` invariant; deletion is modelled by
filtering the key out, which agrees with `Map.delete` under that
invariant). A JSON-RPC frame with an `id` either resolves/rejects the
matching pending entry — clearing its timer and removing it — or is
silently dropped.
-/

/-- What the correlator delivers to the awaiting caller. -/
inductive Delivery where
  | resolved
  | rejected (message : String)
  deriving DecidableEq, Repr

/-- A JSON-RPC response frame as the `es.onmessage` handler sees it
after `extractJsonRpc`: its `id` (already stringified), whether it
carries an `error`, and `error.message` (`none` when absent;
`some ""` is distinct because JavaScript `||` treats `""` as falsy). -/
structure RpcMsg where
  id : String
  isError : Bool
  errMessage : Option String
  deriving DecidableEq, Repr

/-- `msg.error.message || 'MCP tool error'` from the rejection path. -/
def rejectText (errMessage : Option String) : String :=
  match errMessage with
  | some m => if m = "" then "MCP tool error" else m
  | none => "MCP tool error"

/-- `pending.get(id)`: first value stored under the key (the only one,
under the `Map` unique-key invariant). -/
def pendingGet : List (String × Nat) → String → Option Nat
  | [], _ => none
  | (k, v) :: t, i => if k = i then some v else pendingGet t i

/-- `pending.delete(id)`: remove the binding(s) of the key. -/
def pendingDelete : List (String × Nat) → String → List (String × Nat)
  | [], _ => []
  | (k, v) :: t, i =>
    if k = i then pendingDelete t i else (k, v) :: pendingDelete t i

/-- Shallow embedding of the response-resolution step of
`es.onmessage`: look up the frame's id among the pending calls; on a
hit, clear that entry's timer (returned in the middle component),
delete the entry, and complete the caller's promise (reject with an
`Error` whose message is `rejectText`, or resolve); on a miss, do
nothing — no exception, no delivery, state unchanged. -/
def handleRpcFrame (pending : List (String × Nat)) (msg : RpcMsg) :
    List (String × Nat) × List Nat × Option Delivery :=
  match pendingGet pending msg.id with
  | some timer =>
    (pendingDelete pending msg.id, [timer],
      some (if msg.isError then .rejected (rejectText msg.errMessage)
        else .resolved))
  | none => (pending, [], none)

example :
    getTokenTransfersEmb
      (fun off => if off = 0 ∨ off = 50 then .ok ⟨some (List.range 50)⟩
        else .ok ⟨some (List.range 10)⟩) "0xAbC" none none =
    .ok ⟨true, "0xabc", "pacific-1", none, none, 50, 1, List.range 50⟩ := by
  decide

example :
    getNFTTransfersEmb
      (fun off => if off = 0 ∨ off = 50 then .ok ⟨some (List.range 50)⟩
        else .ok ⟨some (List.range 10)⟩) "0xAbC" none none none =
    .ok ⟨true, "0xabc", none, "pacific-1", none, none, 100, 2,
      List.range 50 ++ List.range 50⟩ := by decide

example :
    handleMessagesPost true ["s1", "s2"] none = (400, none, ["s1", "s2"]) := by
  decide

example : handleMessagesPost true ["s1"] none = (200, some "s1", ["s1"]) := by
  decide

example :
    handleRpcFrame [("1", 7), ("2", 9)] ⟨"1", false, none⟩ =
      ([("2", 9)], [7], some .resolved) := by decide

example :
    handleRpcFrame [("2", 9)] ⟨"1", true, some ""⟩ = ([("2", 9)], [], none) := by
  decide

/-!
## Helper lemmas
-/

/-- Does the 429 body carry a machine-readable unblock wait that the
source's unblock path accepts (positive and below the 5-minute
ceiling)? -/
def usableUnblock (b : Body) : Bool :=
  match b.unblockWaitMs with
  | some w => decide (0 < w ∧ w < 300000)
  | none => false

/-- One step of `makeRobustAPICall` on a 429 response whose body has no
usable unblock time: either the 60 s fallback retry or, with the budget
spent, the terminal rate-limited error. -/
lemma makeRobust_429_step (world : Nat → FetchResult) (b : Body)
    (d : ApiData) (a M f : Nat) (hw : world a = .http 429 b d)
    (hub : usableUnblock b = false) :
    makeRobustAPICall world a M (f + 1) =
      if a < M then withStep 60000 (makeRobustAPICall world (a + 1) M f)
      else .err ⟨none, "Error", rateLimitedMsg M b.text⟩ 1 [] := by
  simp only [makeRobustAPICall, hw]
  rcases h : b.unblockWaitMs with _ | w
  · simp only [h, reduceIte]
    by_cases haM : a < M
    · simp [haM]
    · simp [haM]
  · simp only [usableUnblock, h] at hub
    have hw' : ¬(0 < w ∧ w < 300000) := by simpa using hub
    simp only [h, reduceIte, if_neg hw']
    by_cases haM : a < M
    · simp [haM]
    · simp [haM]

/-- On an all-429 world with no usable unblock times, the wrapper
performs the remaining `k` fallback retries and then fails. -/
lemma rateLimit_exhausts_aux (world : Nat → FetchResult) (B : Nat → Body)
    (D : Nat → ApiData) (M : Nat)
    (hw : ∀ n, world n = .http 429 (B n) (D n))
    (hub : ∀ n, usableUnblock (B n) = false) :
    ∀ k a fuel, a + k = M → k + 1 ≤ fuel →
      makeRobustAPICall world a M fuel =
        .err ⟨none, "Error", rateLimitedMsg M (B M).text⟩ (k + 1)
          (List.replicate k 60000) := by
  intro k
  induction k with
  | zero =>
    intro a fuel hak hf
    obtain ⟨f, rfl⟩ : ∃ f, fuel = f + 1 := ⟨fuel - 1, by omega⟩
    rw [makeRobust_429_step world (B a) (D a) a M f (hw a) (hub a)]
    have haM : ¬ a < M := by omega
    rw [if_neg haM]
    have : a = M := by omega
    subst this
    simp
  | succ k ih =>
    intro a fuel hak hf
    obtain ⟨f, rfl⟩ : ∃ f, fuel = f + 1 := ⟨fuel - 1, by omega⟩
    rw [makeRobust_429_step world (B a) (D a) a M f (hw a) (hub a)]
    have haM : a < M := by omega
    rw [if_pos haM, ih (a + 1) f (by omega) (by omega)]
    simp [withStep, List.replicate_succ]

/-!
## Claims
-/

/-- C1, counterexample. The claim says `makeRobustAPICall(url, 1,
maxAttempts)` performs at most `maxAttempts` attempts on an all-429
upstream, "including on the path where a machine-readable unblock time
was parsed from the 429 body". On a world whose every 429 body parses
to a 60 s unblock wait and with `maxAttempts = 1`, the unblock path
retries without consulting the budget: after fuel for 2 recursion
levels the wrapper has already performed 2 HTTP attempts (> 1) and is
still retrying — it has not failed with the rate-limited error. -/
theorem rateLimit_unblock_path_exceeds_budget :
    makeRobustAPICall (fun _ => .http 429 ⟨"busy", some 60000⟩ ⟨none⟩) 1 1 2 =
      .outOfFuel 2 [61000, 61000] ∧
    1 < attemptsOf
      (makeRobustAPICall (fun _ => .http 429 ⟨"busy", some 60000⟩ ⟨none⟩) 1 1 2) := by
  decide

/-- C1 (amended): if the upstream returns 429 on every attempt and no
attempt's body yields a usable machine-readable unblock wait (absent,
non-positive, or at least the 5-minute ceiling), then
`makeRobustAPICall(url, 1, maxAttempts)` performs exactly `maxAttempts`
attempts — hence at most `maxAttempts` — sleeping the fixed 60 s
cooldown between them, and fails with the rate-limited error embedding
the last server message. (The budget does not bound the
scheduled-unblock retry path; see the counterexample.) -/
theorem rateLimit_budget_without_unblock_time
    (world : Nat → FetchResult) (B : Nat → Body) (D : Nat → ApiData)
    (M fuel : Nat)
    (hw : ∀ n, world n = .http 429 (B n) (D n))
    (hub : ∀ n, usableUnblock (B n) = false)
    (hM : 1 ≤ M) (hfuel : M ≤ fuel) :
    makeRobustAPICall world 1 M fuel =
      .err ⟨none, "Error", rateLimitedMsg M (B M).text⟩ M
        (List.replicate (M - 1) 60000) ∧
    attemptsOf (makeRobustAPICall world 1 M fuel) ≤ M := by
  have h := rateLimit_exhausts_aux world B D M hw hub (M - 1) 1 fuel
    (by omega) (by omega)
  have hM1 : M - 1 + 1 = M := by omega
  rw [hM1] at h
  exact ⟨h, by rw [h]; simp [attemptsOf]⟩

/-- Witness for `rateLimit_budget_without_unblock_time` at a concrete
all-429 world with unparseable bodies, `maxAttempts = 2`, fuel 2. -/
theorem rateLimit_budget_without_unblock_time_witness :
    makeRobustAPICall (fun _ => .http 429 ⟨"slow down", none⟩ ⟨none⟩) 1 2 2 =
      .err ⟨none, "Error", rateLimitedMsg 2 "slow down"⟩ 2
        (List.replicate 1 60000) ∧
    attemptsOf
      (makeRobustAPICall (fun _ => .http 429 ⟨"slow down", none⟩ ⟨none⟩) 1 2 2) ≤ 2 :=
  rateLimit_budget_without_unblock_time
    (fun _ => .http 429 ⟨"slow down", none⟩ ⟨none⟩)
    (fun _ => ⟨"slow down", none⟩) (fun _ => ⟨none⟩) 2 2
    (fun _ => rfl) (fun _ => rfl) (by decide) (by decide)

/-- C7, counterexample. The claim says any 4xx other than 408/429 makes
`makeRobustAPICall` fail after exactly one attempt with no retry and no
backoff sleep. But the thrown `HTTP <status>: <body>` error is caught
by the function's own catch clause, whose classifier matches message
substrings: a 400 response whose body contains `fetch failed` is
re-classified as a network error and retried with exponential backoff —
here 3 attempts and two backoff sleeps before the terminal error. -/
theorem client_error_body_substring_causes_retry :
    makeRobustAPICall (fun _ => .http 400 ⟨"fetch failed", none⟩ ⟨none⟩) 1 3 3 =
      .err ⟨none, "Error", "HTTP 400: fetch failed"⟩ 3 [4000, 8000] ∧
    attemptsOf
      (makeRobustAPICall (fun _ => .http 400 ⟨"fetch failed", none⟩ ⟨none⟩) 1 3 3) ≠ 1 := by
  decide

/-- C7 (amended): on a 4xx response other than 408 and 429 whose body
does not make the thrown `HTTP <status>: <body>` message match the
catch clause's network-error substrings, `makeRobustAPICall` fails
after exactly one attempt with no sleep, regardless of how many
attempts remain in the budget. -/
theorem client_error_fails_immediately_without_substring
    (world : Nat → FetchResult) (status : Nat) (body : Body) (d : ApiData)
    (attempt maxAttempts f : Nat)
    (hw : world attempt = .http status body d)
    (h400 : 400 ≤ status) (h500 : status < 500)
    (h408 : status ≠ 408) (h429 : status ≠ 429)
    (hbody : isNetworkError ⟨none, "Error", httpErrMsg status body.text⟩ = false) :
    makeRobustAPICall world attempt maxAttempts (f + 1) =
      .err ⟨none, "Error", httpErrMsg status body.text⟩ 1 [] := by
  simp only [makeRobustAPICall, hw]
  have hok : ¬(200 ≤ status ∧ status ≤ 299) := by omega
  have hretry : ¬((500 ≤ status ∨ status = 408 ∨ status = 429) ∧
      attempt < maxAttempts) := by
    rintro ⟨h5 | h8 | h9, -⟩ <;> omega
  have hcatch : ¬(isNetworkError
      ⟨none, "Error", httpErrMsg status body.text⟩ = true ∧
      attempt < maxAttempts) := by
    rw [hbody]; rintro ⟨h, -⟩; cases h
  rw [if_neg h429, if_pos hok, if_neg hretry, if_neg hcatch]

/-- Witness for `client_error_fails_immediately_without_substring` at a
concrete 404 with a plain body, two attempts remaining. -/
theorem client_error_fails_immediately_without_substring_witness :
    makeRobustAPICall (fun _ => .http 404 ⟨"not found", none⟩ ⟨none⟩) 1 3 3 =
      .err ⟨none, "Error", httpErrMsg 404 "not found"⟩ 1 [] :=
  client_error_fails_immediately_without_substring
    (fun _ => .http 404 ⟨"not found", none⟩ ⟨none⟩) 404 ⟨"not found", none⟩
    ⟨none⟩ 1 3 2 rfl (by decide) (by decide) (by decide) (by decide) (by decide)

/-- The spec's pagination scenario: two full pages of 50 items followed
by a page of 10 (keyed by the request offset 0, 50, 100). -/
def pages50_50_10 : Nat → Except JsError ApiData := fun off =>
  if off = 0 ∨ off = 50 then .ok ⟨some (List.range 50)⟩
  else .ok ⟨some (List.range 10)⟩

/-- Totals of a fungible-token aggregation result:
`(total_transfers, requests_made)` on success. -/
def tokenTotals : TokenTransfersResult → Option (Nat × Nat)
  | .ok r => some (r.total_transfers, r.requests_made)
  | .fail _ => none

/-- Totals of an NFT aggregation result. -/
def nftTotals : NFTTransfersResult → Option (Nat × Nat)
  | .ok r => some (r.total_transfers, r.requests_made)
  | .fail _ => none

/-- C2, counterexample. On an upstream serving two full pages of 50
items and then a page of 10, `getTokenTransfers` does not return 110
items across 3 pages: with its hard-coded `maxRequests = 1` it stops
after the first full page, returning 50 items and `requests_made = 1`
(and its result object has no `truncated` field at all — see
`TokenTransfersOk`). -/
theorem pagination_scenario_not_110_items :
    tokenTotals (getTokenTransfersEmb pages50_50_10 "0xAbC" none none) =
      some (50, 1) ∧
    tokenTotals (getTokenTransfersEmb pages50_50_10 "0xAbC" none none) ≠
      some (110, 3) := by
  decide

/-- C2 (amended): on the two-full-pages-then-ten scenario the
aggregation is capped by `maxRequests = 1`: it succeeds with exactly
the 50 items of the first page and reports `requests_made = 1`. The
returned object carries `success, token_address, chain_id, from_date,
to_date, total_transfers, requests_made, transfers` — there is no
`truncated` flag anywhere in the result. -/
theorem pagination_scenario_capped_at_one_page :
    getTokenTransfersEmb pages50_50_10 "0xAbC" none none =
      .ok ⟨true, "0xabc", "pacific-1", none, none, 50, 1, List.range 50⟩ := by
  decide

/-- A full first page (50 items) followed by a short page of 10. -/
def pages50_10 : Nat → Except JsError ApiData := fun off =>
  if off = 0 then .ok ⟨some (List.range 50)⟩ else .ok ⟨some (List.range 10)⟩

/-- C6, counterexample. The claim says the NFT aggregation invoked
without a tokenId behaves identically to the fungible-token
aggregation on the same upstream, including the same page budget and
result counts. But `getTokenTransfers` caps at `maxRequests = 1` while
`getNFTTransfers` caps at `maxRequests = 2`: on a full page of 50
followed by a page of 10, the fungible variant returns 50 items and
the NFT variant 60. -/
theorem nft_token_aggregations_differ_on_page_budget :
    getTokenTransfersEmb pages50_10 "0xAbC" none none =
      .ok ⟨true, "0xabc", "pacific-1", none, none, 50, 1, List.range 50⟩ ∧
    getNFTTransfersEmb pages50_10 "0xAbC" none none none =
      .ok ⟨true, "0xabc", none, "pacific-1", none, none, 60, 1,
        List.range 50 ++ List.range 10⟩ ∧
    tokenTotals (getTokenTransfersEmb pages50_10 "0xAbC" none none) ≠
      nftTotals (getNFTTransfersEmb pages50_10 "0xAbC" none none none) := by
  decide

/-- Does the first upstream page terminate the aggregation loop (error,
missing/empty items, or fewer than `limit = 50` items)? -/
def stopsOnFirstPage (upstream : Nat → Except JsError ApiData) : Bool :=
  match upstream 0 with
  | .error _ => true
  | .ok d =>
    match d.items with
    | some l => decide (l.length < 50)
    | none => true

/-- C6 (amended): the NFT aggregation without a tokenId is identical to
the fungible-token aggregation except for the upstream query (erc721
endpoint, optional `token_id` parameter) *and the page budget*
(`maxRequests = 2` versus `1`): whenever the first page terminates the
loop — error, no items, or fewer than 50 items — the two aggregations
produce the same accumulation, request count and error; they can
differ only once the first page is full. -/
theorem nft_token_aggregations_agree_within_first_page
    (upstream : Nat → Except JsError ApiData) (a : String)
    (f t : Option String) (h : stopsOnFirstPage upstream = true) :
    tokenCore (getTokenTransfersEmb upstream a f t) =
      nftCore (getNFTTransfersEmb upstream a none f t) := by
  simp only [getTokenTransfersEmb, getNFTTransfersEmb, aggLoop]
  simp only [stopsOnFirstPage] at h
  rcases hu : upstream 0 with e | d
  · simp [hu, tokenCore, nftCore]
  · rcases hi : d.items with _ | l
    · simp [hu, hi, tokenCore, nftCore]
    · rcases l with _ | ⟨i, is⟩
      · simp [hu, hi, tokenCore, nftCore]
      · have hlen : is.length + 1 < 50 := by simpa [hu, hi] using h
        simp [hu, hi, hlen, tokenCore, nftCore]

/-- Witness for `nft_token_aggregations_agree_within_first_page` at a
concrete upstream whose first page has 10 items. -/
theorem nft_token_aggregations_agree_within_first_page_witness :
    tokenCore
      (getTokenTransfersEmb (fun _ => .ok ⟨some (List.range 10)⟩) "0xAbC"
        none none) =
    nftCore
      (getNFTTransfersEmb (fun _ => .ok ⟨some (List.range 10)⟩) "0xAbC" none
        none none) :=
  nft_token_aggregations_agree_within_first_page
    (fun _ => .ok ⟨some (List.range 10)⟩) "0xAbC" none none (by decide)

/-- C5: if the resilient wrapper's call for a page throws (its retry
budget exhausted), the whole aggregation returns the failure object
built from that page's error message; the failure objects
(`TokenTransfersErr`, `NFTTransfersErr`) carry no `transfers` field,
so no items accumulated from earlier successful pages appear in the
returned value — failure, not partial success. Covers the first page
of both aggregators and (for the NFT variant, whose budget allows a
second page) a failure after a full first page. -/
theorem aggregation_failure_no_partial_success
    (upstream : Nat → Except JsError ApiData) (a : String)
    (tid f t : Option String) (e : JsError) :
    (upstream 0 = .error e →
      getTokenTransfersEmb upstream a f t =
        .fail ⟨false, e.message, a, "pacific-1", f, t⟩ ∧
      getNFTTransfersEmb upstream a tid f t =
        .fail ⟨false, e.message, a, tid, "pacific-1", f, t⟩) ∧
    (∀ d l, upstream 0 = .ok d → d.items = some l → 50 ≤ l.length →
      upstream 50 = .error e →
      getNFTTransfersEmb upstream a tid f t =
        .fail ⟨false, e.message, a, tid, "pacific-1", f, t⟩) := by
  constructor
  · intro h0
    simp [getTokenTransfersEmb, getNFTTransfersEmb, aggLoop, h0]
  · intro d l h0 hi hlen h50
    rcases l with _ | ⟨i, is⟩
    · simp at hlen
    · have hfull : ¬(is.length + 1 < 50) := by simp at hlen ⊢; omega
      simp [getNFTTransfersEmb, aggLoop, h0, hi, hfull, h50]

/-- Witness for `aggregation_failure_no_partial_success`: an upstream
that throws a network error on the very first page. -/
theorem aggregation_failure_no_partial_success_witness :
    getTokenTransfersEmb
      (fun _ => .error ⟨some "ECONNRESET", "Error", "socket hang up"⟩)
      "0xAbC" none none =
      .fail ⟨false, "socket hang up", "0xAbC", "pacific-1", none, none⟩ ∧
    getNFTTransfersEmb
      (fun _ => .error ⟨some "ECONNRESET", "Error", "socket hang up"⟩)
      "0xAbC" none none none =
      .fail ⟨false, "socket hang up", "0xAbC", none, "pacific-1", none, none⟩ :=
  (aggregation_failure_no_partial_success
    (fun _ => .error ⟨some "ECONNRESET", "Error", "socket hang up"⟩)
    "0xAbC" none none none ⟨some "ECONNRESET", "Error", "socket hang up"⟩).1
    rfl

/-- C8: if the upstream returns zero items on the very first page
(missing, non-array, or empty `items`), the aggregation terminates as
a successful result: `success = true`, `total_transfers = 0`, empty
`transfers` — not a failure. -/
theorem empty_first_page_success (upstream : Nat → Except JsError ApiData)
    (a : String) (f t : Option String) (d : ApiData)
    (h0 : upstream 0 = .ok d) (hi : d.items = none ∨ d.items = some []) :
    getTokenTransfersEmb upstream a f t =
      .ok ⟨true, cleanAddressOf a, "pacific-1", f, t, 0, 0, []⟩ := by
  rcases hi with hi | hi <;> simp [getTokenTransfersEmb, aggLoop, h0, hi]

/-- Witness for `empty_first_page_success`: a first page whose `items`
array is empty. -/
theorem empty_first_page_success_witness :
    getTokenTransfersEmb (fun _ => .ok ⟨some []⟩) "0xAbC" none none =
      .ok ⟨true, cleanAddressOf "0xAbC", "pacific-1", none, none, 0, 0, []⟩ :=
  empty_first_page_success (fun _ => .ok ⟨some []⟩) "0xAbC" none none
    ⟨some []⟩ rfl (Or.inr rfl)

/-- C10: the `requests_made` counter is incremented only after a full
page that sends the loop into another iteration; the terminating
request of a natural-end exit (fewer items than `limit`, including
zero) or an empty-page exit (empty or missing/non-array `items`) is
never counted, on both aggregation variants. In particular a
successful fungible-token aggregation whose first (and only) page
carries between 1 and 49 items reports `requests_made = 0` even though
one upstream request was issued (its items are in the result), and an
NFT aggregation with a full first page and a short or empty second
page reports `requests_made = 1` though two requests were issued. -/
theorem requests_made_counts_only_full_pages
    (upstream : Nat → Except JsError ApiData) (a : String)
    (f t : Option String) :
    (∀ d l, upstream 0 = .ok d → d.items = some l → l.length < 50 →
      getTokenTransfersEmb upstream a f t =
        .ok ⟨true, cleanAddressOf a, "pacific-1", f, t, l.length, 0, l⟩) ∧
    (∀ d, upstream 0 = .ok d → d.items = none →
      getTokenTransfersEmb upstream a f t =
        .ok ⟨true, cleanAddressOf a, "pacific-1", f, t, 0, 0, []⟩) ∧
    (∀ d l, upstream 0 = .ok d → d.items = some l → l.length < 50 →
      getNFTTransfersEmb upstream a none f t =
        .ok ⟨true, cleanAddressOf a, none, "pacific-1", f, t, l.length, 0, l⟩) ∧
    (∀ d, upstream 0 = .ok d → d.items = none →
      getNFTTransfersEmb upstream a none f t =
        .ok ⟨true, cleanAddressOf a, none, "pacific-1", f, t, 0, 0, []⟩) ∧
    (∀ d₁ l₁ d₂ l₂, upstream 0 = .ok d₁ → d₁.items = some l₁ →
      50 ≤ l₁.length → upstream 50 = .ok d₂ → d₂.items = some l₂ →
      l₂.length < 50 →
      getNFTTransfersEmb upstream a none f t =
        .ok ⟨true, cleanAddressOf a, none, "pacific-1", f, t,
          l₁.length + l₂.length, 1, l₁ ++ l₂⟩) ∧
    (∀ d₁ l₁ d₂, upstream 0 = .ok d₁ → d₁.items = some l₁ →
      50 ≤ l₁.length → upstream 50 = .ok d₂ → d₂.items = none →
      getNFTTransfersEmb upstream a none f t =
        .ok ⟨true, cleanAddressOf a, none, "pacific-1", f, t,
          l₁.length, 1, l₁⟩) := by
  refine ⟨fun d l h0 hi h50 => ?_, fun d h0 hi => ?_,
    fun d l h0 hi h50 => ?_, fun d h0 hi => ?_,
    fun d₁ l₁ d₂ l₂ h0 hi1 hfull1 h50 hi2 hshort2 => ?_,
    fun d₁ l₁ d₂ h0 hi1 hfull1 h50 hi2 => ?_⟩
  · rcases l with _ | ⟨i, is⟩
    · simp [getTokenTransfersEmb, aggLoop, h0, hi]
    · have hshort : is.length + 1 < 50 := by simpa using h50
      simp [getTokenTransfersEmb, aggLoop, h0, hi, hshort]
  · simp [getTokenTransfersEmb, aggLoop, h0, hi]
  · rcases l with _ | ⟨i, is⟩
    · simp [getNFTTransfersEmb, aggLoop, h0, hi]
    · have hshort : is.length + 1 < 50 := by simpa using h50
      simp [getNFTTransfersEmb, aggLoop, h0, hi, hshort]
  · simp [getNFTTransfersEmb, aggLoop, h0, hi]
  · rcases l₁ with _ | ⟨i, is⟩
    · simp at hfull1
    · have hfull : ¬(is.length + 1 < 50) := by simp at hfull1 ⊢; omega
      rcases l₂ with _ | ⟨j, js⟩
      · simp [getNFTTransfersEmb, aggLoop, h0, hi1, hfull, h50, hi2]
      · have hshort : js.length + 1 < 50 := by simpa using hshort2
        simp [getNFTTransfersEmb, aggLoop, h0, hi1, hfull, h50, hi2, hshort]
        omega
  · rcases l₁ with _ | ⟨i, is⟩
    · simp at hfull1
    · have hfull : ¬(is.length + 1 < 50) := by simp at hfull1 ⊢; omega
      simp [getNFTTransfersEmb, aggLoop, h0, hi1, hfull, h50, hi2]

/-- Witness for `requests_made_counts_only_full_pages`: a single page
of 10 items yields a successful fungible-token result reporting
`requests_made = 0`, an empty first page reports `requests_made = 0`,
and an NFT run with a full first page and an empty second page reports
`requests_made = 1` despite two requests issued. -/
theorem requests_made_counts_only_full_pages_witness :
    getTokenTransfersEmb (fun _ => .ok ⟨some (List.range 10)⟩) "0xAbC"
        none none =
      .ok ⟨true, cleanAddressOf "0xAbC", "pacific-1", none, none, 10, 0,
        List.range 10⟩ ∧
    getTokenTransfersEmb (fun _ => .ok ⟨some []⟩) "0xAbC" none none =
      .ok ⟨true, cleanAddressOf "0xAbC", "pacific-1", none, none, 0, 0, []⟩ ∧
    getNFTTransfersEmb
        (fun off => if off = 0 then .ok ⟨some (List.range 50)⟩
          else .ok ⟨some []⟩) "0xAbC" none none none =
      .ok ⟨true, cleanAddressOf "0xAbC", none, "pacific-1", none, none,
        (List.range 50).length + (List.nil : List Nat).length, 1,
        List.range 50 ++ []⟩ := by
  refine ⟨?_, ?_, ?_⟩
  · exact (requests_made_counts_only_full_pages
      (fun _ => .ok ⟨some (List.range 10)⟩) "0xAbC" none none).1
      ⟨some (List.range 10)⟩ (List.range 10) rfl rfl (by decide)
  · have h := (requests_made_counts_only_full_pages
      (fun _ => .ok ⟨some []⟩) "0xAbC" none none).1
      ⟨some []⟩ [] rfl rfl (by decide)
    simpa using h
  · exact (requests_made_counts_only_full_pages
      (fun off => if off = 0 then .ok ⟨some (List.range 50)⟩
        else .ok ⟨some []⟩) "0xAbC" none none).2.2.2.2.1
      ⟨some (List.range 50)⟩ (List.range 50) ⟨some []⟩ []
      rfl rfl (by decide) rfl rfl (by decide)

/-- `pendingDelete` removes the deleted id. -/
lemma pendingGet_delete_self (l : List (String × Nat)) (i : String) :
    pendingGet (pendingDelete l i) i = none := by
  induction l with
  | nil => rfl
  | cons p t ih =>
    obtain ⟨k, v⟩ := p
    by_cases h : k = i
    · simp [pendingDelete, h, ih]
    · simp [pendingDelete, pendingGet, h, ih]

/-- `pendingDelete` leaves every other id's binding unchanged. -/
lemma pendingGet_delete_other (l : List (String × Nat)) (i k : String)
    (hk : k ≠ i) : pendingGet (pendingDelete l i) k = pendingGet l k := by
  have hik : i ≠ k := fun hc => hk hc.symm
  induction l with
  | nil => rfl
  | cons p t ih =>
    obtain ⟨k', v⟩ := p
    by_cases h : k' = i
    · subst h
      simp [pendingDelete, pendingGet, hik, ih]
    · by_cases h2 : k' = k
      · subst h2
        simp [pendingDelete, pendingGet, h, ih]
      · simp [pendingDelete, pendingGet, h, h2, ih]

/-- C3: resolving a call id is at-most-once and idempotent. When a
response frame arrives for an id with a pending entry, that entry's
timer is cleared, the entry is removed, and exactly one completion is
delivered, while every other pending entry is untouched; a frame whose
id has no pending entry (duplicate, late, or foreign) changes nothing
and delivers nothing — the handler is a total function, so it cannot
throw; and re-handling the same id against the post-state is always a
no-op, so a second resolution never delivers a second completion. -/
theorem pending_resolution_at_most_once
    (pending : List (String × Nat)) (msg : RpcMsg) :
    (∀ timer, pendingGet pending msg.id = some timer →
      handleRpcFrame pending msg =
        (pendingDelete pending msg.id, [timer],
          some (if msg.isError then .rejected (rejectText msg.errMessage)
            else .resolved)) ∧
      pendingGet (handleRpcFrame pending msg).1 msg.id = none ∧
      (∀ k, k ≠ msg.id →
        pendingGet (handleRpcFrame pending msg).1 k = pendingGet pending k)) ∧
    (pendingGet pending msg.id = none →
      handleRpcFrame pending msg = (pending, [], none)) ∧
    handleRpcFrame (handleRpcFrame pending msg).1 msg =
      ((handleRpcFrame pending msg).1, [], none) := by
  refine ⟨fun timer h => ?_, fun h => ?_, ?_⟩
  · refine ⟨by simp [handleRpcFrame, h], ?_, fun k hk => ?_⟩
    · simp [handleRpcFrame, h, pendingGet_delete_self]
    · simp [handleRpcFrame, h, pendingGet_delete_other pending msg.id k hk]
  · simp [handleRpcFrame, h]
  · rcases h : pendingGet pending msg.id with _ | timer
    · simp [handleRpcFrame, h]
    · have h1 : (handleRpcFrame pending msg).1 = pendingDelete pending msg.id := by
        simp [handleRpcFrame, h]
      rw [h1]
      simp [handleRpcFrame, pendingGet_delete_self]

/-- Witness for `pending_resolution_at_most_once` on a registry with
two pending calls and a response for id "1". -/
theorem pending_resolution_at_most_once_witness :
    handleRpcFrame [("1", 7), ("2", 9)] ⟨"1", false, none⟩ =
      (pendingDelete [("1", 7), ("2", 9)] "1", [7], some .resolved) ∧
    pendingGet (handleRpcFrame [("1", 7), ("2", 9)] ⟨"1", false, none⟩).1 "1" =
      none ∧
    pendingGet (handleRpcFrame [("1", 7), ("2", 9)] ⟨"1", false, none⟩).1 "2" =
      pendingGet [("1", 7), ("2", 9)] "2" :=
  let h := (pending_resolution_at_most_once [("1", 7), ("2", 9)]
    ⟨"1", false, none⟩).1 7 rfl
  ⟨h.1, h.2.1, h.2.2 "2" (by decide)⟩

/-- C4: a POST to `/messages` with no `sessionId` query parameter is
rejected with HTTP 400 when two or more sessions are registered (never
routed to a guessed session), and routed to the unique session when
exactly one is registered; the session registry is unchanged by either
outcome. (The MCP server is initialized whenever any session is
registered: `/sse` only registers a connection after the
server-initialized check.) -/
theorem messages_post_session_routing (connections : List String) :
    (2 ≤ connections.length →
      handleMessagesPost true connections none = (400, none, connections)) ∧
    (∀ s, connections = [s] →
      handleMessagesPost true connections none = (200, some s, connections)) := by
  constructor
  · intro h2
    have hne : connections.length ≠ 1 := by omega
    simp [handleMessagesPost, hne]
  · rintro s rfl
    simp [handleMessagesPost]

/-- Witness for `messages_post_session_routing` with two registered
sessions and with a single registered session. -/
theorem messages_post_session_routing_witness :
    handleMessagesPost true ["s1", "s2"] none = (400, none, ["s1", "s2"]) ∧
    handleMessagesPost true ["s1"] none = (200, some "s1", ["s1"]) :=
  ⟨(messages_post_session_routing ["s1", "s2"]).1 (by decide),
    (messages_post_session_routing ["s1"]).2 "s1" rfl⟩

/-- C9, counterexample. The claim says every terminal error surfaced by
the transfer-history operations is structured as a classification kind
plus a message. But a rate-limit exhaustion (the wrapper fails after
all-429 responses) and a connection-level network failure (every
attempt rejects with `ECONNRESET`) are distinct error values of
different classes — yet when their messages coincide, the failure
objects `getTokenTransfers` surfaces for them are identical: the
surfaced value carries only `success = false` and the bare message
string, so no kind can be recovered from it. -/
theorem terminal_errors_indistinguishable_across_kinds :
    makeRobustAPICall (fun _ => .http 429 ⟨"boom", none⟩ ⟨none⟩) 1 2 2 =
      .err ⟨none, "Error", rateLimitedMsg 2 "boom"⟩ 2 [60000] ∧
    makeRobustAPICall
        (fun _ => .reject ⟨some "ECONNRESET", "Error", rateLimitedMsg 2 "boom"⟩)
        1 2 2 =
      .err ⟨some "ECONNRESET", "Error", rateLimitedMsg 2 "boom"⟩ 2 [4000] ∧
    (⟨none, "Error", rateLimitedMsg 2 "boom"⟩ : JsError) ≠
      ⟨some "ECONNRESET", "Error", rateLimitedMsg 2 "boom"⟩ ∧
    getTokenTransfersEmb
        (fun _ => .error ⟨none, "Error", rateLimitedMsg 2 "boom"⟩)
        "0xAbC" none none =
      getTokenTransfersEmb
        (fun _ => .error ⟨some "ECONNRESET", "Error", rateLimitedMsg 2 "boom"⟩)
        "0xAbC" none none := by
  decide

/-- C9 (amended): every terminal error of the transfer-history
operations is surfaced as a structured failure object with
`success = false` and the underlying error's message string, and the
bot correlator rejects the awaiting caller with an `Error` built from
the frame's error message alone — in both cases only the human-readable
message accompanies the failure; no machine-readable kind field does. -/
theorem terminal_error_surfaces_bare_message
    (upstream : Nat → Except JsError ApiData) (a : String)
    (f t : Option String) (e : JsError) (pending : List (String × Nat))
    (msg : RpcMsg) (timer : Nat) :
    (upstream 0 = .error e →
      getTokenTransfersEmb upstream a f t =
        .fail ⟨false, e.message, a, "pacific-1", f, t⟩) ∧
    (pendingGet pending msg.id = some timer → msg.isError = true →
      (handleRpcFrame pending msg).2.2 =
        some (.rejected (rejectText msg.errMessage))) := by
  constructor
  · intro h0
    simp [getTokenTransfersEmb, aggLoop, h0]
  · intro h he
    simp [handleRpcFrame, h, he]

/-- Witness for `terminal_error_surfaces_bare_message` at a first-page
upstream error and an error frame for a pending call. -/
theorem terminal_error_surfaces_bare_message_witness :
    getTokenTransfersEmb
        (fun _ => .error ⟨none, "Error", "HTTP 500: oops"⟩) "0xAbC" none none =
      .fail ⟨false, "HTTP 500: oops", "0xAbC", "pacific-1", none, none⟩ ∧
    (handleRpcFrame [("1", 7)] ⟨"1", true, some "tool exploded"⟩).2.2 =
      some (.rejected (rejectText (some "tool exploded"))) :=
  let h := terminal_error_surfaces_bare_message
    (fun _ => .error ⟨none, "Error", "HTTP 500: oops"⟩) "0xAbC" none none
    ⟨none, "Error", "HTTP 500: oops"⟩ [("1", 7)]
    ⟨"1", true, some "tool exploded"⟩ 7
  ⟨h.1 rfl, h.2 rfl rfl⟩
